import Mathlib

/-!
Verification of the pause-dashboard query layer.

This file gives a shallow embedding of the repository's code:

* `src/db/client.py` — the `Neo4jClient` query layer.  The graph store is
  modelled as an explicit list of labelled nodes and typed edges
  (`Graph` below), and each Cypher query of the client is translated to a
  Lean function over `Graph` following the query's pattern-matching
  semantics.  Where a query relies on a specific Cypher behaviour
  (aggregation over zero rows, `OPTIONAL MATCH` cross products, `collect`
  skipping nulls, a bare `MATCH` after `WITH` dropping all rows when the
  pattern has no matches), the doc comment of the corresponding
  definition records the reading used.
* `src/db/llm.py` — the summarization adapter.  The external
  text-generation call is abstracted as a function argument, and the
  result records whether the external client was created and how many
  calls were made.
* `src/main.py` — only the set of query-layer method names used by the
  dashboard route handler is needed, modelled as lists of names.

Numeric rates computed with Python float division are modelled with
exact rational arithmetic (`Rat`).  Neo4j's `ORDER BY` over strings is
modelled by a codepoint-wise lexicographic order (`strLe`), and its
unspecified grouping order after `WITH ... collect(...)` is modelled as
first-appearance order of the grouping key.
-/

set_option maxRecDepth 10000

namespace PauseDash

/-- Node labels of the graph schema (spec §3). -/
inductive Label where
  | Decision
  | Event
  | Outcome
  | Person
  | Agent
  | Task
deriving DecidableEq, Repr

/-- Relationship types of the graph schema (spec §3). -/
inductive Rel where
  | PARTICIPATED_IN
  | CONTRIBUTED_TO
  | CAUSED_BY
  | LED_TO
deriving DecidableEq, Repr

/-- A graph node with its store id, label and the properties the queries
touch.  A property that is absent on a node is `none` (Cypher `NULL`).
`otype` models the `type` property of Outcome nodes. -/
structure Node where
  id : Nat
  label : Label
  name : Option String := none
  description : Option String := none
  role : Option String := none
  otype : Option String := none
  ai_influence : Option String := none
deriving DecidableEq, Repr

/-- A directed typed relationship. -/
structure Edge where
  src : Nat
  rel : Rel
  dst : Nat
deriving DecidableEq, Repr

/-- The graph store consumed read-only by the query layer. -/
structure Graph where
  nodes : List Node
  edges : List Edge
deriving DecidableEq, Repr

/-- Store-side invariant: node identity is unique per store-assigned id
(spec §3). -/
def Graph.Wf (g : Graph) : Prop := (g.nodes.map Node.id).Nodup

instance (g : Graph) : Decidable g.Wf := by unfold Graph.Wf; infer_instance

/-- The nodes carrying a given label, in store order. -/
def Graph.labNodes (g : Graph) (l : Label) : List Node :=
  g.nodes.filter (fun n => n.label == l)

/-- `MATCH (n:L) RETURN count(n)`: the number of rows matching a label. -/
def Graph.countLabel (g : Graph) (l : Label) : Nat :=
  (g.labNodes l).length

/-- Whether the store holds at least one `r`-edge from node id `s` to
node id `t`. -/
def Graph.hasRel (g : Graph) (s : Nat) (r : Rel) (t : Nat) : Bool :=
  g.edges.any (fun e => e.src == s && e.rel == r && e.dst == t)

/-- The nodes reachable from node id `s` over one `r`-edge, one row per
(edge, node) match, in store order. -/
def Graph.outNbrs (g : Graph) (r : Rel) (s : Nat) : List Node :=
  (g.edges.filter (fun e => e.src == s && e.rel == r)).flatMap
    (fun e => g.nodes.filter (fun n => n.id == e.dst))

/-- The nodes with one `r`-edge into node id `t`, one row per
(edge, node) match, in store order. -/
def Graph.inNbrs (g : Graph) (r : Rel) (t : Nat) : List Node :=
  (g.edges.filter (fun e => e.dst == t && e.rel == r)).flatMap
    (fun e => g.nodes.filter (fun n => n.id == e.src))

/-- Cypher `count(DISTINCT n)` over a list of matched nodes: the number
of distinct node identities. -/
def distinctCount (l : List Node) : Nat := (l.map Node.id).dedup.length

/-- The `l`-labelled participants of the decision with id `did`, i.e. the
matches of `(p:l)-[:PARTICIPATED_IN]->(d)`. -/
def Graph.participants (g : Graph) (l : Label) (did : Nat) : List Node :=
  (g.labNodes l).filter (fun p => g.hasRel p.id Rel.PARTICIPATED_IN did)

/-! ### Codepoint order on strings

Neo4j's `ORDER BY` over strings is modelled by lexicographic comparison
of the character sequences. -/

/-- Lexicographic comparison of character lists by codepoint. -/
def charsLe : List Char → List Char → Bool
  | [], _ => true
  | _ :: _, [] => false
  | a :: as, b :: bs =>
    if a.toNat < b.toNat then true
    else if b.toNat < a.toNat then false
    else charsLe as bs

/-- Lexicographic codepoint order on strings, the model of Cypher
`ORDER BY` ascending over string values. -/
def strLe (a b : String) : Bool := charsLe a.data b.data

/-! ### `Neo4jClient.get_people_with_stats` / `get_agents_with_stats`

Cypher (src/db/client.py:67-85):
`MATCH (p:Person) OPTIONAL MATCH (p)-[:PARTICIPATED_IN]->(d:Decision)
 WITH p, count(d) as decision_count
 RETURN p.name as name, p.role as role, decision_count
 ORDER BY decision_count DESC LIMIT $limit`
The `OPTIONAL MATCH` keeps a person with no participation as a single
row with `d = NULL`, and `count(d)` ignores the null, so such a person
gets `decision_count = 0`. -/

/-- Number of matches of `(p)-[:PARTICIPATED_IN]->(d:Decision)` for a
fixed `p`: one row per (edge, decision-node) pair. -/
def participationCount (g : Graph) (p : Node) : Nat :=
  ((g.edges.filter (fun e => e.src == p.id && e.rel == Rel.PARTICIPATED_IN)).flatMap
    (fun e => (g.labNodes Label.Decision).filter (fun d => d.id == e.dst))).length

/-- One row of `get_people_with_stats`. -/
structure PersonStat where
  name : Option String
  role : Option String
  decision_count : Nat
deriving DecidableEq, Repr

/-- One row of `get_agents_with_stats`. -/
structure AgentStat where
  name : Option String
  description : Option String
  decision_count : Nat
deriving DecidableEq, Repr

/-- `ORDER BY decision_count DESC` for people rows. -/
def personStatGe (a b : PersonStat) : Prop := b.decision_count ≤ a.decision_count

instance : DecidableRel personStatGe := fun a b => by unfold personStatGe; infer_instance

instance : IsTotal PersonStat personStatGe :=
  ⟨fun a b => (Nat.le_total b.decision_count a.decision_count).imp id id⟩

instance : IsTrans PersonStat personStatGe :=
  ⟨fun _ _ _ h1 h2 => Nat.le_trans h2 h1⟩

/-- `ORDER BY decision_count DESC` for agent rows. -/
def agentStatGe (a b : AgentStat) : Prop := b.decision_count ≤ a.decision_count

instance : DecidableRel agentStatGe := fun a b => by unfold agentStatGe; infer_instance

instance : IsTotal AgentStat agentStatGe :=
  ⟨fun a b => (Nat.le_total b.decision_count a.decision_count).imp id id⟩

instance : IsTrans AgentStat agentStatGe :=
  ⟨fun _ _ _ h1 h2 => Nat.le_trans h2 h1⟩

/-- Embeds `Neo4jClient.get_people_with_stats` (src/db/client.py:67-75). -/
def get_people_with_stats (g : Graph) (limit : Nat) : List PersonStat :=
  (((g.labNodes Label.Person).map
      (fun p => PersonStat.mk p.name p.role (participationCount g p))).insertionSort
    personStatGe).take limit

/-- Embeds `Neo4jClient.get_agents_with_stats` (src/db/client.py:77-85). -/
def get_agents_with_stats (g : Graph) (limit : Nat) : List AgentStat :=
  (((g.labNodes Label.Agent).map
      (fun a => AgentStat.mk a.name a.description (participationCount g a))).insertionSort
    agentStatGe).take limit

/-! ### `Neo4jClient.get_decisions_by_influence` / `get_decision_influence_stats` -/

/-- Embeds `Neo4jClient.get_decisions_by_influence`
(src/db/client.py:90-95): count of Decisions whose `ai_influence`
property equals the given label. -/
def get_decisions_by_influence (g : Graph) (influence_type : String) : Nat :=
  ((g.labNodes Label.Decision).filter (fun d => d.ai_influence == some influence_type)).length

/-- Result record of `get_decision_influence_stats`. -/
structure InfluenceStats where
  high : Nat
  low : Nat
  total : Nat
  high_rate : Rat
  low_rate : Rat
deriving DecidableEq, Repr

/-- Embeds `Neo4jClient.get_decision_influence_stats`
(src/db/client.py:97-107).  Python float division is modelled by exact
rational division; a zero total yields rate 0. -/
def get_decision_influence_stats (g : Graph) : InfluenceStats :=
  let high_count := get_decisions_by_influence g "high"
  let low_count := get_decisions_by_influence g "low"
  let total := high_count + low_count
  { high := high_count
    low := low_count
    total := total
    high_rate := if total > 0 then (high_count : Rat) / (total : Rat) * 100 else 0
    low_rate := if total > 0 then (low_count : Rat) / (total : Rat) * 100 else 0 }

/-! ### `Neo4jClient.get_dashboard_stats`

Cypher (src/db/client.py:109-127).  The query chains aggregations with
`WITH`; the first `WITH count(d)` has no grouping key so it produces one
row even on an empty store, and each later stage is an `OPTIONAL MATCH`
followed by an aggregation keyed on the carried scalars, so the query
always returns exactly one row and the Python `if result` branch is
always taken.  Note the human/ai stages match
`(d:Decision)<-[:CONTRIBUTED_TO]-(p:Person)` (and `Agent`): an incoming
`CONTRIBUTED_TO` edge from a Person/Agent node, not `PARTICIPATED_IN`. -/

/-- Whether decision `d` has a `LED_TO` edge to an Outcome whose `type`
property is `t`. -/
def Graph.ledToType (g : Graph) (d : Node) (t : String) : Bool :=
  (g.labNodes Label.Outcome).any
    (fun o => o.otype == some t && g.hasRel d.id Rel.LED_TO o.id)

/-- Whether some `l`-labelled node has a `CONTRIBUTED_TO` edge into
decision `d` (the pattern `(d)<-[:CONTRIBUTED_TO]-(p:l)`). -/
def Graph.contribFrom (g : Graph) (l : Label) (d : Node) : Bool :=
  (g.labNodes l).any (fun p => g.hasRel p.id Rel.CONTRIBUTED_TO d.id)

/-- Result record of `get_dashboard_stats`. -/
structure DashboardStats where
  total_decisions : Nat
  good_outcomes : Nat
  bad_outcomes : Nat
  good_rate : Rat
  bad_rate : Rat
  human_decisions : Nat
  ai_decisions : Nat
deriving DecidableEq, Repr

/-- Embeds `Neo4jClient.get_dashboard_stats` (src/db/client.py:109-152). -/
def get_dashboard_stats (g : Graph) : DashboardStats :=
  let total := (g.labNodes Label.Decision).length
  let good := distinctCount ((g.labNodes Label.Decision).filter (fun d => g.ledToType d "good"))
  let bad := distinctCount ((g.labNodes Label.Decision).filter (fun d => g.ledToType d "bad"))
  let human := distinctCount ((g.labNodes Label.Decision).filter (fun d => g.contribFrom Label.Person d))
  let ai := distinctCount ((g.labNodes Label.Decision).filter (fun d => g.contribFrom Label.Agent d))
  { total_decisions := total
    good_outcomes := good
    bad_outcomes := bad
    good_rate := if good + bad > 0 then (good : Rat) / ((good : Rat) + (bad : Rat)) * 100 else 0
    bad_rate := if good + bad > 0 then (bad : Rat) / ((good : Rat) + (bad : Rat)) * 100 else 0
    human_decisions := human
    ai_decisions := ai }

/-! ### `Neo4jClient.get_contribution_split`

Cypher (src/db/client.py:205-252).  The decision query matches every
Decision, takes the cross product of the optional Person/Agent
participant matches, classifies each row, and counts distinct decisions
per class; since all rows of one decision carry the same class, the
classification is by existence of each participant kind.  The Python
wrapper folds the returned (class, count) rows into a dict whose `total`
accumulates the sum of the counts, and then returns ONLY the decision
split: the outcome split is computed and discarded. -/

/-- Per-decision contributor classification of the decision split
(`both`/`ai`/`human`/`none`), by existence of Agent and Person
participants. -/
def contributorType (g : Graph) (did : Nat) : String :=
  let hasA := !(g.participants Label.Agent did).isEmpty
  let hasP := !(g.participants Label.Person did).isEmpty
  if hasA && hasP then "both"
  else if hasA then "ai"
  else if hasP then "human"
  else "none"

/-- `count(DISTINCT d)` of the decisions classified `t` by the decision
query of `get_contribution_split`. -/
def decisionSplitCount (g : Graph) (t : String) : Nat :=
  distinctCount ((g.labNodes Label.Decision).filter (fun d => contributorType g d.id == t))

/-- The four class counts and accumulated total of one split, as built
by the Python dict fold. -/
structure SplitCounts where
  human : Nat
  ai : Nat
  both : Nat
  nones : Nat
  total : Nat
deriving DecidableEq, Repr

/-- The decisions contributing to outcome `o` via
`(o:Outcome)<-[:CAUSED_BY]-(x)<-[:CONTRIBUTED_TO*1..2]-(d:Decision)`
with `x:Task OR x:Event` (src/db/client.py:219-220). -/
def Graph.outcomeContribDecisions (g : Graph) (o : Node) : List Node :=
  ((g.inNbrs Rel.CAUSED_BY o.id).filter
      (fun x => x.label == Label.Task || x.label == Label.Event)).flatMap
    (fun x =>
      ((g.inNbrs Rel.CONTRIBUTED_TO x.id) ++
        (g.inNbrs Rel.CONTRIBUTED_TO x.id).flatMap
          (fun m => g.inNbrs Rel.CONTRIBUTED_TO m.id)).filter
        (fun d => d.label == Label.Decision))

/-- `count(DISTINCT o)` of the outcomes having at least one contributing
decision of class `t` (the outcome query of `get_contribution_split`).
An outcome with contributing decisions of several classes is counted
once under each such class. -/
def outcomeSplitCount (g : Graph) (t : String) : Nat :=
  distinctCount ((g.labNodes Label.Outcome).filter
    (fun o => (g.outcomeContribDecisions o).any (fun d => contributorType g d.id == t)))

/-- The outcome split of `get_contribution_split`
(src/db/client.py:218-239): computed by the source and then discarded —
no field of it reaches the returned dict. -/
def outcomeSplitCounts (g : Graph) : SplitCounts :=
  let h := outcomeSplitCount g "human"
  let a := outcomeSplitCount g "ai"
  let b := outcomeSplitCount g "both"
  let n := outcomeSplitCount g "none"
  { human := h, ai := a, both := b, nones := n, total := h + a + b + n }

/-- Embeds the value returned by `Neo4jClient.get_contribution_split`
(src/db/client.py:241-252), as the ordered key/value pairs of the
returned dict.  `decisions["total"] or 1` is modelled by the `tdiv`
guard. -/
def get_contribution_split (g : Graph) : List (String × Rat) :=
  let dh := decisionSplitCount g "human"
  let da := decisionSplitCount g "ai"
  let db := decisionSplitCount g "both"
  let dn := decisionSplitCount g "none"
  let total := dh + da + db + dn
  let tdiv : Rat := if total = 0 then 1 else (total : Rat)
  [("human_only", (dh : Rat)),
   ("ai_only", (da : Rat)),
   ("both", (db : Rat)),
   ("none", (dn : Rat)),
   ("total", (total : Rat)),
   ("human_only_rate", (dh : Rat) / tdiv * 100),
   ("ai_only_rate", (da : Rat) / tdiv * 100),
   ("both_rate", (db : Rat) / tdiv * 100),
   ("none_rate", (dn : Rat) / tdiv * 100)]

/-- Field lookup in a returned dict, 0 for an absent key. -/
def getField (l : List (String × Rat)) (k : String) : Rat :=
  match l.find? (fun p => p.1 == k) with
  | some p => p.2
  | none => 0

/-! ### `Neo4jClient.get_topology_stats`

Cypher (src/db/client.py:271-284).  The query chains bare `MATCH`
clauses after `WITH`.  `MATCH (d:Decision) WITH count(d) as decisions`
aggregates without a grouping key, so it yields one row even with zero
decisions; every later stage is a bare `MATCH` followed by an
aggregation keyed on the carried scalars, so if any of Event, Outcome,
Person, Agent or Task has zero instances the row set becomes empty and
stays empty, the query returns no rows, and the Python fallback returns
the all-zero record. -/

/-- Result record of `get_topology_stats`. -/
structure TopologyStats where
  decisions : Nat
  events : Nat
  outcomes : Nat
  people : Nat
  agents : Nat
  tasks : Nat
deriving DecidableEq, Repr

/-- The row list produced by the topology query: empty as soon as one of
the chained bare `MATCH` clauses (Event, Outcome, Person, Agent, Task)
has no match. -/
def topologyRows (g : Graph) : List TopologyStats :=
  if g.countLabel Label.Event = 0 ∨ g.countLabel Label.Outcome = 0 ∨
      g.countLabel Label.Person = 0 ∨ g.countLabel Label.Agent = 0 ∨
      g.countLabel Label.Task = 0 then
    []
  else
    [{ decisions := g.countLabel Label.Decision
       events := g.countLabel Label.Event
       outcomes := g.countLabel Label.Outcome
       people := g.countLabel Label.Person
       agents := g.countLabel Label.Agent
       tasks := g.countLabel Label.Task }]

/-- Embeds `Neo4jClient.get_topology_stats` (src/db/client.py:271-284):
first row of the query result, or the all-zero fallback record. -/
def get_topology_stats (g : Graph) : TopologyStats :=
  match topologyRows g with
  | r :: _ => r
  | [] => { decisions := 0, events := 0, outcomes := 0, people := 0, agents := 0, tasks := 0 }

/-! ### `Neo4jClient.get_decisions_by_type`

Cypher (src/db/client.py:154-187).  For every Decision with a non-null
name, the query matches the optional Person/Agent participants and the
optional outcome chain
`(d)-[:CONTRIBUTED_TO*1..2]->(x)<-[:CAUSED_BY]-(o:Outcome)` with
`WHERE x IS NULL OR x:Task OR x:Event` (within a successful match `x`
is never null, so the filter keeps only Task/Event midpoints; the
variable-length hop bound is 1..2, so a chain of zero `CONTRIBUTED_TO`
hops never matches).  The first grouping collects distinct participant
names (`collect` skips nulls) and picks `collect(DISTINCT o.name)[0]`
as the single outcome.  Rows are then ordered by the classification
rank and the decision name, grouped by classification (group order
modelled as first appearance, i.e. rank order), each group sliced to
`$per_type` rows, and flattened back by `UNWIND`. -/

/-- The midpoint nodes reachable from decision id `did` via
`CONTRIBUTED_TO*1..2`, one row per path, in store order. -/
def Graph.contribTargets (g : Graph) (did : Nat) : List Node :=
  g.outNbrs Rel.CONTRIBUTED_TO did ++
    (g.outNbrs Rel.CONTRIBUTED_TO did).flatMap (fun m => g.outNbrs Rel.CONTRIBUTED_TO m.id)

/-- The Outcome nodes matched for decision `d` by the pattern
`(d)-[:CONTRIBUTED_TO*1..2]->(x)<-[:CAUSED_BY]-(o:Outcome)` with
`x:Task OR x:Event`, one row per path. -/
def Graph.outcomeCandidates (g : Graph) (d : Node) : List Node :=
  ((g.contribTargets d.id).filter
      (fun x => x.label == Label.Task || x.label == Label.Event)).flatMap
    (fun x => (g.inNbrs Rel.CAUSED_BY x.id).filter (fun o => o.label == Label.Outcome))

/-- `collect(DISTINCT o.name)[0]` over the matched outcome candidates:
`collect` skips null names, `DISTINCT` dedups, `[0]` takes the head. -/
def resolvedOutcome (g : Graph) (d : Node) : Option String :=
  (((g.outcomeCandidates d).map Node.name).filterMap id).dedup.head?

/-- The `CASE` classification of src/db/client.py:166-169: `both` when
both participant kinds exist, then `ai`, then `human`, else
`unknown`. -/
def influenceClass (prs ags : List Node) : String :=
  if !ags.isEmpty && !prs.isEmpty then "both"
  else if !ags.isEmpty then "ai"
  else if !prs.isEmpty then "human"
  else "unknown"

/-- The ordering rank of src/db/client.py:174:
`CASE influence_type WHEN 'both' THEN 0 WHEN 'human' THEN 1 WHEN 'ai'
THEN 2 ELSE 3 END`. -/
def typeRank (t : String) : Nat :=
  if t = "both" then 0 else if t = "human" then 1 else if t = "ai" then 2 else 3

/-- A per-decision row of `get_decisions_by_type` before the grouping
step; `did` carries the matched decision's node identity (projected
away by the final `RETURN`). -/
structure DRow where
  did : Nat
  decision : String
  description : Option String
  outcome : Option String
  people : List String
  agents : List String
  influence_type : String
deriving DecidableEq, Repr

/-- The row built for one named decision. -/
def mkDRow (g : Graph) (d : Node) (nm : String) : DRow :=
  let prs := g.participants Label.Person d.id
  let ags := g.participants Label.Agent d.id
  { did := d.id
    decision := nm
    description := d.description
    outcome := resolvedOutcome g d
    people := ((prs.map Node.name).filterMap id).dedup
    agents := ((ags.map Node.name).filterMap id).dedup
    influence_type := influenceClass prs ags }

/-- One row per Decision with a non-null name
(`MATCH (d:Decision) WHERE d.name IS NOT NULL`), in store order. -/
def decisionRows (g : Graph) : List DRow :=
  (g.labNodes Label.Decision).filterMap (fun d => d.name.map (fun nm => mkDRow g d nm))

/-- `ORDER BY CASE ... END, decision`: classification rank first, then
decision name ascending. -/
def rowLe (a b : DRow) : Prop :=
  typeRank a.influence_type < typeRank b.influence_type ∨
    (typeRank a.influence_type = typeRank b.influence_type ∧ strLe a.decision b.decision = true)

instance : DecidableRel rowLe := fun a b => by unfold rowLe; infer_instance

/-- The ordered row list fed into the grouping step. -/
def sortedRows (g : Graph) : List DRow := (decisionRows g).insertionSort rowLe

/-- The grouping keys of `WITH influence_type, collect(...)`, in first
appearance order over the ordered rows. -/
def groupKeys (g : Graph) : List String := ((sortedRows g).map DRow.influence_type).dedup

/-- One group of the grouping step: the ordered rows of one
classification, sliced to the first `per_type` (`[0..$per_type]`). -/
def groupFor (g : Graph) (per_type : Nat) (t : String) : List DRow :=
  ((sortedRows g).filter (fun r => r.influence_type == t)).take per_type

/-- A row of the final `RETURN` of `get_decisions_by_type`. -/
structure OutRow where
  decision : String
  description : Option String
  outcome : Option String
  people : List String
  agents : List String
  influence_type : String
deriving DecidableEq, Repr

/-- The final `RETURN` projection. -/
def projOut (r : DRow) : OutRow :=
  { decision := r.decision
    description := r.description
    outcome := r.outcome
    people := r.people
    agents := r.agents
    influence_type := r.influence_type }

/-- Embeds `Neo4jClient.get_decisions_by_type` (src/db/client.py:154-187):
groups in first-appearance order, each sliced to `per_type` rows,
flattened by `UNWIND` and projected by `RETURN`. -/
def get_decisions_by_type (g : Graph) (per_type : Nat) : List OutRow :=
  ((groupKeys g).map (fun t => (groupFor g per_type t).map projOut)).flatten

/-! ### Method surface of `Neo4jClient` and the dashboard route

From the class body of `Neo4jClient` (src/db/client.py:28-284) and the
`dashboard` route handler (src/main.py:12-39). -/

/-- The attributes (methods and properties) defined by the `Neo4jClient`
class, in source order. -/
def neo4jClientMethods : List String :=
  ["__init__", "driver", "close", "query",
   "get_decisions", "get_events", "get_outcomes", "get_people", "get_agents",
   "get_people_with_stats", "get_agents_with_stats", "get_tasks",
   "get_decisions_by_influence", "get_decision_influence_stats",
   "get_dashboard_stats", "get_decisions_by_type", "get_outcomes_for_summary",
   "get_contribution_split", "get_dashboard_summary", "get_topology_stats"]

/-- The client methods invoked by the `dashboard` route handler in
src/main.py:14-21, in call order. -/
def dashboardClientCalls : List String :=
  ["get_dashboard_summary", "get_contribution_split",
   "get_decisions_with_outcomes", "get_people_with_stats",
   "get_agents_with_stats", "get_outcomes_for_summary"]

/-! ### Summarization adapter (`src/db/llm.py`) -/

/-- Python `str()` rendering of a value that may be `None`. -/
def pyStr : Option String → String
  | none => "None"
  | some s => s

/-- One input record of `summarize_outcomes`, as a dict that may lack a
key (`none`) or hold a null value (`some none`). -/
structure OutcomeRecord where
  outcomeKey : Option (Option String) := none
  descriptionKey : Option (Option String) := none
  decisionsKey : Option (List String) := none
deriving DecidableEq, Repr

/-- Python `o.get(key, default)` followed by f-string rendering: the
default only applies when the key is absent; a present null value
renders as the literal text `None`. -/
def pyGetStr (field : Option (Option String)) (dflt : String) : String :=
  match field with
  | none => dflt
  | some v => pyStr v

/-- The per-record prompt line built by `summarize_outcomes`
(src/db/llm.py:24-28):
`f"- {o.get('outcome', 'Unknown outcome')}: {o.get('description', 'No description')} (from decisions: {', '.join(filter(None, o.get('decisions', []))) or 'unknown'})"`.
`filter(None, ...)` drops falsy elements (empty strings), and the
trailing `or 'unknown'` replaces an empty join. -/
def outcomeLine (o : OutcomeRecord) : String :=
  let joined := String.intercalate ", " ((o.decisionsKey.getD []).filter (fun s => s != ""))
  "- " ++ pyGetStr o.outcomeKey "Unknown outcome" ++ ": " ++
    pyGetStr o.descriptionKey "No description" ++
    " (from decisions: " ++ (if joined = "" then "unknown" else joined) ++ ")"

/-- Observable result of one `summarize_outcomes` call: the returned
text, whether the external client was created
(`get_openai_client`), and how many chat-completion calls were made. -/
structure SummarizeResult where
  text : String
  clientCreated : Bool
  llmCalls : Nat
deriving DecidableEq, Repr

/-- Embeds `summarize_outcomes` (src/db/llm.py:20-47).  The external
text-generation service is the function `gen` from the user prompt to
the returned message content (`none` models a null content); `x or
fallback` on the content is modelled by the match on `none`/empty. -/
def summarize_outcomes (gen : String → Option String) (outcomes : List OutcomeRecord) :
    SummarizeResult :=
  if outcomes.isEmpty then
    { text := "No outcomes to summarize.", clientCreated := false, llmCalls := 0 }
  else
    let outcomesText := String.intercalate "\n" (outcomes.map outcomeLine)
    let content := gen ("Summarize these outcomes from recent decisions:\n\n" ++ outcomesText)
    { text :=
        match content with
        | none => "Unable to generate summary."
        | some s => if s = "" then "Unable to generate summary." else s
      clientCreated := true
      llmCalls := 1 }

/-- Modelled from the spec's wording of the serialized prompt line,
amended to the source behaviour: the outcome name, description and
comma-joined decision names appear in that order; an absent name or
description key is replaced by placeholder text, a key present with a
null value renders as the literal text `None`, and the decisions
fragment is the comma-join of the non-empty decision names, or
`unknown` when none remain. -/
def specSerializedLine (r : OutcomeRecord) : String :=
  let nameFrag : String :=
    match r.outcomeKey with
    | none => "Unknown outcome"
    | some none => "None"
    | some (some s) => s
  let descFrag : String :=
    match r.descriptionKey with
    | none => "No description"
    | some none => "None"
    | some (some s) => s
  let names := (r.decisionsKey.getD []).filter (fun s => s != "")
  let decFrag := if String.intercalate ", " names = "" then "unknown" else String.intercalate ", " names
  "- " ++ nameFrag ++ ": " ++ descFrag ++ " (from decisions: " ++ decFrag ++ ")"

/-! ### Path predicates for the outcome resolution of
`get_decisions_by_type` -/

/-- One `CONTRIBUTED_TO` edge from node id `s` to node id `t`. -/
def ContribStep (g : Graph) (s t : Nat) : Prop :=
  ∃ e ∈ g.edges, e.src = s ∧ e.rel = Rel.CONTRIBUTED_TO ∧ e.dst = t

/-- The outcome `o` is reachable from decision `d` by the pattern of
src/db/client.py:160-161: a `CONTRIBUTED_TO` chain of one or two hops
from `d` to a Task or Event node `x`, and a `CAUSED_BY` edge from `o`
to `x`. -/
def CodeResolvable (g : Graph) (d o : Node) : Prop :=
  o.label = Label.Outcome ∧
    ∃ x ∈ g.nodes, (x.label = Label.Task ∨ x.label = Label.Event) ∧
      (ContribStep g d.id x.id ∨
        ∃ m ∈ g.nodes, ContribStep g d.id m.id ∧ ContribStep g m.id x.id) ∧
      ∃ e ∈ g.edges, e.src = o.id ∧ e.rel = Rel.CAUSED_BY ∧ e.dst = x.id

/-! ### Concrete store states used by the individual claims -/

/-- The end-to-end scenario of the spec (§8): two Decisions, a Person
participating in the first, an Agent participating in the second, and a
`good` Outcome reached from the first via `LED_TO`.  Participation uses
the schema's `PARTICIPATED_IN` relationship. -/
def dashG1 : Graph :=
  { nodes := [{ id := 1, label := Label.Decision, name := some "d1" },
              { id := 2, label := Label.Decision, name := some "d2" },
              { id := 3, label := Label.Person, name := some "pat" },
              { id := 4, label := Label.Agent, name := some "bot" },
              { id := 5, label := Label.Outcome, name := some "o1", otype := some "good" }]
    edges := [{ src := 3, rel := Rel.PARTICIPATED_IN, dst := 1 },
              { src := 4, rel := Rel.PARTICIPATED_IN, dst := 2 },
              { src := 1, rel := Rel.LED_TO, dst := 5 }] }

/-- A store with one human-contributed Decision whose `CONTRIBUTED_TO`
chain reaches an Outcome through a Task, so both the decision split and
the outcome split of `get_contribution_split` are non-trivial. -/
def splitG3 : Graph :=
  { nodes := [{ id := 1, label := Label.Decision, name := some "d1" },
              { id := 2, label := Label.Person, name := some "pat" },
              { id := 3, label := Label.Task },
              { id := 4, label := Label.Outcome, name := some "o1" }]
    edges := [{ src := 2, rel := Rel.PARTICIPATED_IN, dst := 1 },
              { src := 1, rel := Rel.CONTRIBUTED_TO, dst := 3 },
              { src := 3, rel := Rel.CAUSED_BY, dst := 4 }] }

/-- A store holding one node of every kind except Event. -/
def topoG4 : Graph :=
  { nodes := [{ id := 1, label := Label.Decision, name := some "d1" },
              { id := 2, label := Label.Outcome, name := some "o1" },
              { id := 3, label := Label.Person, name := some "pat" },
              { id := 4, label := Label.Agent, name := some "bot" },
              { id := 5, label := Label.Task }]
    edges := [] }

/-- A store holding one node of every kind. -/
def topoGW : Graph :=
  { nodes := [{ id := 1, label := Label.Decision, name := some "d1" },
              { id := 2, label := Label.Event, name := some "e1" },
              { id := 3, label := Label.Outcome, name := some "o1" },
              { id := 4, label := Label.Person, name := some "pat" },
              { id := 5, label := Label.Agent, name := some "bot" },
              { id := 6, label := Label.Task }]
    edges := [] }

/-- A store with a single Decision whose `name` property is null, plus a
Person participating in it. -/
def cexG5 : Graph :=
  { nodes := [{ id := 1, label := Label.Decision },
              { id := 2, label := Label.Person, name := some "pat" }]
    edges := [{ src := 2, rel := Rel.PARTICIPATED_IN, dst := 1 }] }

/-- Three named Decisions: one with both participant kinds, one with a
Person only, one with none. -/
def gw5 : Graph :=
  { nodes := [{ id := 1, label := Label.Decision, name := some "b-dec" },
              { id := 2, label := Label.Decision, name := some "a-dec" },
              { id := 3, label := Label.Decision, name := some "c-dec" },
              { id := 4, label := Label.Person, name := some "pat" },
              { id := 5, label := Label.Agent, name := some "bot" }]
    edges := [{ src := 4, rel := Rel.PARTICIPATED_IN, dst := 1 },
              { src := 5, rel := Rel.PARTICIPATED_IN, dst := 1 },
              { src := 4, rel := Rel.PARTICIPATED_IN, dst := 2 }] }

/-- The `both`-classified decision node of `gw5`. -/
def gw5BothNode : Node := { id := 1, label := Label.Decision, name := some "b-dec" }

/-- A Decision that is directly the cause of an Outcome: the store holds
the `CAUSED_BY` edge from the Outcome to the Decision itself, with no
`CONTRIBUTED_TO` edge anywhere, i.e. a zero-hop `CONTRIBUTED_TO`
chain. -/
def cexG6 : Graph :=
  { nodes := [{ id := 1, label := Label.Decision, name := some "d1" },
              { id := 2, label := Label.Outcome, name := some "o1" }]
    edges := [{ src := 2, rel := Rel.CAUSED_BY, dst := 1 }] }

/-- A Decision one `CONTRIBUTED_TO` hop from a Task that an Outcome is
caused by. -/
def gw6 : Graph :=
  { nodes := [{ id := 1, label := Label.Decision, name := some "d1" },
              { id := 2, label := Label.Task },
              { id := 3, label := Label.Outcome, name := some "win" }]
    edges := [{ src := 1, rel := Rel.CONTRIBUTED_TO, dst := 2 },
              { src := 3, rel := Rel.CAUSED_BY, dst := 2 }] }

/-- The decision node of `gw6`. -/
def gw6DecNode : Node := { id := 1, label := Label.Decision, name := some "d1" }

/-- Two Persons — one participating in a Decision, one with no
participation at all — plus an Agent. -/
def gw7 : Graph :=
  { nodes := [{ id := 1, label := Label.Person, name := some "alice" },
              { id := 2, label := Label.Person, name := some "bob", role := some "eng" },
              { id := 3, label := Label.Decision, name := some "d1" },
              { id := 4, label := Label.Agent, name := some "bot" }]
    edges := [{ src := 2, rel := Rel.PARTICIPATED_IN, dst := 3 }] }

/-- The zero-participation Person of `gw7`. -/
def gw7Alice : Node := { id := 1, label := Label.Person, name := some "alice" }

/-- A store with a single high-influence Decision. -/
def gw8 : Graph :=
  { nodes := [{ id := 1, label := Label.Decision, name := some "d1", ai_influence := some "high" }]
    edges := [] }

/-- A record whose `outcome` key is present but null and whose other
keys are absent. -/
def recNullName : OutcomeRecord := { outcomeKey := some none }

/-- A record with every field present and non-null. -/
def recFull : OutcomeRecord :=
  { outcomeKey := some (some "Launch")
    descriptionKey := some (some "Shipped v1")
    decisionsKey := some ["d1", "d2"] }


/-! ## Supporting lemmas -/

theorem map_filter_key {α β : Type} (f : α → β) (q : β → Bool) (l : List α) :
    (l.filter (fun a => q (f a))).map f = (l.map f).filter q := by
  induction l with
  | nil => rfl
  | cons a tl ih =>
    cases h : q (f a) with
    | true => simp only [List.filter_cons, List.map_cons, h, if_true, List.map_cons, ih]
    | false => simp only [List.filter_cons, List.map_cons, h, Bool.false_eq_true, if_false, ih]

theorem dedup_filter_comm {α : Type} [DecidableEq α] (p : α → Bool) (l : List α) :
    (l.filter p).dedup = l.dedup.filter p := by
  induction l with
  | nil => rfl
  | cons a tl ih =>
    cases hp : p a with
    | true =>
      by_cases hm : a ∈ tl
      · have hmf : a ∈ tl.filter p := List.mem_filter.mpr ⟨hm, hp⟩
        simp only [List.filter_cons, hp, if_true]
        rw [List.dedup_cons_of_mem hmf, List.dedup_cons_of_mem hm, ih]
      · have hmf : a ∉ tl.filter p := fun hc => hm (List.mem_of_mem_filter hc)
        simp only [List.filter_cons, hp, if_true]
        rw [List.dedup_cons_of_not_mem hmf, List.dedup_cons_of_not_mem hm]
        simp only [List.filter_cons, hp, if_true]
        rw [ih]
    | false =>
      by_cases hm : a ∈ tl
      · simp only [List.filter_cons, hp, Bool.false_eq_true, if_false]
        rw [List.dedup_cons_of_mem hm, ih]
      · simp only [List.filter_cons, hp, Bool.false_eq_true, if_false]
        rw [List.dedup_cons_of_not_mem hm]
        simp only [List.filter_cons, hp, Bool.false_eq_true, if_false]
        exact ih

theorem four_class_partition {α β : Type} [DecidableEq β] (f : α → β) (t1 t2 t3 t4 : β)
    (h12 : t1 ≠ t2) (h13 : t1 ≠ t3) (h14 : t1 ≠ t4) (h23 : t2 ≠ t3) (h24 : t2 ≠ t4)
    (h34 : t3 ≠ t4) (l : List α)
    (hall : ∀ a ∈ l, f a = t1 ∨ f a = t2 ∨ f a = t3 ∨ f a = t4) :
    (l.filter (fun a => f a == t1)).length + (l.filter (fun a => f a == t2)).length +
      (l.filter (fun a => f a == t3)).length + (l.filter (fun a => f a == t4)).length =
      l.length := by
  induction l with
  | nil => rfl
  | cons a tl ih =>
    have ih' := ih (fun x hx => hall x (List.mem_cons_of_mem a hx))
    have ha := hall a (List.mem_cons_self a tl)
    rcases ha with h | h | h | h <;>
      simp only [List.filter_cons, h, beq_self_eq_true, if_true, beq_iff_eq, List.length_cons] <;>
      simp only [h12, h13, h14, h23, h24, h34, Ne.symm h12, Ne.symm h13, Ne.symm h14,
        Ne.symm h23, Ne.symm h24, Ne.symm h34, if_false, ite_false] <;>
      omega

theorem contributorType_cases (g : Graph) (i : Nat) :
    contributorType g i = "human" ∨ contributorType g i = "ai" ∨
      contributorType g i = "both" ∨ contributorType g i = "none" := by
  simp only [contributorType]
  split_ifs with h1 h2 h3
  · exact Or.inr (Or.inr (Or.inl rfl))
  · exact Or.inr (Or.inl rfl)
  · exact Or.inl rfl
  · exact Or.inr (Or.inr (Or.inr rfl))

theorem distinctCount_labNodes (g : Graph) (hw : g.Wf) (l : Label) :
    distinctCount (g.labNodes l) = g.countLabel l := by
  unfold distinctCount Graph.countLabel Graph.labNodes
  rw [List.dedup_eq_self.mpr
    (List.Nodup.sublist ((List.filter_sublist g.nodes).map Node.id) hw)]
  rw [List.length_map]

theorem decisionSplit_partition (g : Graph) :
    decisionSplitCount g "human" + decisionSplitCount g "ai" + decisionSplitCount g "both" +
      decisionSplitCount g "none" = distinctCount (g.labNodes Label.Decision) := by
  unfold decisionSplitCount distinctCount
  have hmap : ∀ t : String,
      ((g.labNodes Label.Decision).filter (fun d => contributorType g d.id == t)).map Node.id =
        ((g.labNodes Label.Decision).map Node.id).filter (fun i => contributorType g i == t) := by
    intro t
    exact map_filter_key Node.id (fun i => contributorType g i == t) (g.labNodes Label.Decision)
  rw [hmap "human", hmap "ai", hmap "both", hmap "none",
    dedup_filter_comm, dedup_filter_comm, dedup_filter_comm, dedup_filter_comm]
  exact four_class_partition (fun i => contributorType g i) "human" "ai" "both" "none"
    (by decide) (by decide) (by decide) (by decide) (by decide) (by decide)
    ((g.labNodes Label.Decision).map Node.id).dedup
    (fun i _ => contributorType_cases g i)

theorem charsLe_total : ∀ (a b : List Char), charsLe a b = true ∨ charsLe b a = true := by
  intro a
  induction a with
  | nil => intro b; left; rfl
  | cons x xs ih =>
    intro b
    cases b with
    | nil => right; rfl
    | cons y ys =>
      by_cases h1 : x.toNat < y.toNat
      · left; simp [charsLe, h1]
      · by_cases h2 : y.toNat < x.toNat
        · right; simp [charsLe, h2]
        · rcases ih ys with h | h
          · left; simp [charsLe, h1, h2, h]
          · right; simp [charsLe, h1, h2, h]

theorem charsLe_trans : ∀ (a b c : List Char),
    charsLe a b = true → charsLe b c = true → charsLe a c = true := by
  intro a
  induction a with
  | nil => intro b c _ _; rfl
  | cons x xs ih =>
    intro b c hab hbc
    cases b with
    | nil => simp [charsLe] at hab
    | cons y ys =>
      cases c with
      | nil => simp [charsLe] at hbc
      | cons z zs =>
        simp only [charsLe] at hab hbc ⊢
        by_cases h1 : x.toNat < y.toNat
        · by_cases h3 : y.toNat < z.toNat
          · simp [show x.toNat < z.toNat by omega]
          · by_cases h4 : z.toNat < y.toNat
            · simp [h3, h4] at hbc
            · simp [show x.toNat < z.toNat by omega]
        · by_cases h2 : y.toNat < x.toNat
          · simp [h1, h2] at hab
          · by_cases h3 : y.toNat < z.toNat
            · simp [show x.toNat < z.toNat by omega]
            · by_cases h4 : z.toNat < y.toNat
              · simp [h3, h4] at hbc
              · simp [show ¬ x.toNat < z.toNat by omega, show ¬ z.toNat < x.toNat by omega]
                exact ih ys zs (by simpa [h1, h2] using hab) (by simpa [h3, h4] using hbc)

theorem strLe_total (a b : String) : strLe a b = true ∨ strLe b a = true :=
  charsLe_total a.data b.data

theorem strLe_trans {a b c : String} (h1 : strLe a b = true) (h2 : strLe b c = true) :
    strLe a c = true :=
  charsLe_trans a.data b.data c.data h1 h2

theorem rowLe_total : ∀ a b : DRow, rowLe a b ∨ rowLe b a := by
  intro a b
  rcases Nat.lt_trichotomy (typeRank a.influence_type) (typeRank b.influence_type) with h | h | h
  · exact Or.inl (Or.inl h)
  · rcases strLe_total a.decision b.decision with hs | hs
    · exact Or.inl (Or.inr ⟨h, hs⟩)
    · exact Or.inr (Or.inr ⟨h.symm, hs⟩)
  · exact Or.inr (Or.inl h)

theorem rowLe_trans : ∀ a b c : DRow, rowLe a b → rowLe b c → rowLe a c := by
  intro a b c hab hbc
  rcases hab with h1 | ⟨h1, s1⟩ <;> rcases hbc with h2 | ⟨h2, s2⟩
  · exact Or.inl (by omega)
  · exact Or.inl (by omega)
  · exact Or.inl (by omega)
  · exact Or.inr ⟨by omega, strLe_trans s1 s2⟩

theorem decisionRows_eq (g : Graph) :
    decisionRows g = ((g.labNodes Label.Decision).filter (fun n => n.name.isSome)).map
      (fun n => mkDRow g n (n.name.getD "")) := by
  unfold decisionRows
  generalize (g.labNodes Label.Decision) = l
  induction l with
  | nil => rfl
  | cons a tl ih =>
    cases ha : a.name with
    | none => simp [List.filterMap_cons, List.filter_cons, ha, ih]
    | some nm => simp [List.filterMap_cons, List.filter_cons, ha, ih]

theorem influenceClass_cases (prs ags : List Node) :
    influenceClass prs ags = "both" ∨ influenceClass prs ags = "human" ∨
      influenceClass prs ags = "ai" ∨ influenceClass prs ags = "unknown" := by
  simp only [influenceClass]
  split_ifs with h1 h2 h3
  · exact Or.inl rfl
  · exact Or.inr (Or.inr (Or.inl rfl))
  · exact Or.inr (Or.inl rfl)
  · exact Or.inr (Or.inr (Or.inr rfl))

theorem mem_groupFor_type (g : Graph) (k : Nat) (t : String) (r : DRow)
    (hr : r ∈ groupFor g k t) : r.influence_type = t := by
  unfold groupFor at hr
  have hmem := (List.take_sublist k _).subset hr
  exact beq_iff_eq.mp (List.mem_filter.mp hmem).2

theorem groups_filter (f : String → List OutRow)
    (hhom : ∀ t, ∀ r ∈ f t, r.influence_type = t) :
    ∀ (keys : List String), keys.Nodup → ∀ (t : String),
      ((keys.map f).flatten.filter (fun r => r.influence_type == t)) =
        if t ∈ keys then f t else [] := by
  intro keys
  induction keys with
  | nil => intro _ t; simp
  | cons c cs ih =>
    intro hnd t
    have hcnotin := (List.nodup_cons.mp hnd).1
    have hnd2 := (List.nodup_cons.mp hnd).2
    simp only [List.map_cons, List.flatten_cons, List.filter_append]
    rw [ih hnd2 t]
    by_cases hct : c = t
    · subst hct
      rw [if_neg hcnotin, if_pos (List.mem_cons_self c cs)]
      rw [List.filter_eq_self.mpr (fun r hr => by simp [hhom c r hr])]
      exact List.append_nil (f c)
    · rw [List.filter_eq_nil_iff.mpr (fun r hr => by simp [hhom c r hr, hct])]
      rw [List.nil_append]
      by_cases htc : t ∈ cs
      · rw [if_pos htc, if_pos (List.mem_cons_of_mem c htc)]
      · rw [if_neg htc, if_neg (by simp [hct, htc, List.mem_cons]; exact fun h => absurd h.symm hct)]

theorem mem_outNbrs (g : Graph) (r : Rel) (s : Nat) (n : Node) :
    n ∈ g.outNbrs r s ↔ n ∈ g.nodes ∧ ∃ e ∈ g.edges, e.src = s ∧ e.rel = r ∧ e.dst = n.id := by
  unfold Graph.outNbrs
  simp only [List.mem_flatMap, List.mem_filter, Bool.and_eq_true, beq_iff_eq]
  constructor
  · rintro ⟨e, ⟨he, hsrc, hrel⟩, hn, hid⟩
    exact ⟨hn, e, he, hsrc, hrel, hid.symm⟩
  · rintro ⟨hn, e, he, hsrc, hrel, hid⟩
    exact ⟨e, ⟨he, hsrc, hrel⟩, hn, hid.symm⟩

theorem mem_inNbrs (g : Graph) (r : Rel) (t : Nat) (n : Node) :
    n ∈ g.inNbrs r t ↔ n ∈ g.nodes ∧ ∃ e ∈ g.edges, e.src = n.id ∧ e.rel = r ∧ e.dst = t := by
  unfold Graph.inNbrs
  simp only [List.mem_flatMap, List.mem_filter, Bool.and_eq_true, beq_iff_eq]
  constructor
  · rintro ⟨e, ⟨he, hdst, hrel⟩, hn, hid⟩
    exact ⟨hn, e, he, hid.symm, hrel, hdst⟩
  · rintro ⟨hn, e, he, hsrc, hrel, hdst⟩
    exact ⟨e, ⟨he, hdst, hrel⟩, hn, hsrc.symm⟩

theorem mem_contribTargets (g : Graph) (did : Nat) (x : Node) :
    x ∈ g.contribTargets did ↔
      x ∈ g.nodes ∧ (ContribStep g did x.id ∨
        ∃ m ∈ g.nodes, ContribStep g did m.id ∧ ContribStep g m.id x.id) := by
  unfold Graph.contribTargets ContribStep
  simp only [List.mem_append, List.mem_flatMap]
  constructor
  · rintro (h | ⟨m, hm, hx⟩)
    · rcases (mem_outNbrs g Rel.CONTRIBUTED_TO did x).mp h with ⟨hxn, e, he, h1, h2, h3⟩
      exact ⟨hxn, Or.inl ⟨e, he, h1, h2, h3⟩⟩
    · rcases (mem_outNbrs g Rel.CONTRIBUTED_TO did m).mp hm with ⟨hmn, e1, he1, h11, h12, h13⟩
      rcases (mem_outNbrs g Rel.CONTRIBUTED_TO m.id x).mp hx with ⟨hxn, e2, he2, h21, h22, h23⟩
      exact ⟨hxn, Or.inr ⟨m, hmn, ⟨e1, he1, h11, h12, h13⟩, ⟨e2, he2, h21, h22, h23⟩⟩⟩
  · rintro ⟨hxn, h | ⟨m, hmn, h1, h2⟩⟩
    · exact Or.inl ((mem_outNbrs g Rel.CONTRIBUTED_TO did x).mpr ⟨hxn, h⟩)
    · exact Or.inr ⟨m, (mem_outNbrs g Rel.CONTRIBUTED_TO did m).mpr ⟨hmn, h1⟩,
        (mem_outNbrs g Rel.CONTRIBUTED_TO m.id x).mpr ⟨hxn, h2⟩⟩

theorem mem_outcomeCandidates (g : Graph) (d o : Node) :
    o ∈ g.outcomeCandidates d ↔ o ∈ g.nodes ∧ CodeResolvable g d o := by
  unfold Graph.outcomeCandidates CodeResolvable
  simp only [List.mem_flatMap, List.mem_filter, Bool.or_eq_true, beq_iff_eq]
  constructor
  · rintro ⟨x, ⟨hxt, hxlab⟩, hoin, holab⟩
    rcases (mem_contribTargets g d.id x).mp hxt with ⟨hxn, hchain⟩
    rcases (mem_inNbrs g Rel.CAUSED_BY x.id o).mp hoin with ⟨hon, e, he, h1, h2, h3⟩
    exact ⟨hon, holab, x, hxn, hxlab, hchain, e, he, h1, h2, h3⟩
  · rintro ⟨hon, holab, x, hxn, hxlab, hchain, e, he, h1, h2, h3⟩
    exact ⟨x, ⟨(mem_contribTargets g d.id x).mpr ⟨hxn, hchain⟩, hxlab⟩,
      ⟨(mem_inNbrs g Rel.CAUSED_BY x.id o).mpr ⟨hon, e, he, h1, h2, h3⟩, holab⟩⟩

theorem mem_resolvedNames (g : Graph) (d : Node) (nm : String) :
    nm ∈ (((g.outcomeCandidates d).map Node.name).filterMap id).dedup ↔
      ∃ o ∈ g.nodes, CodeResolvable g d o ∧ o.name = some nm := by
  rw [List.mem_dedup]
  simp only [List.mem_filterMap, List.mem_map, id_eq]
  constructor
  · rintro ⟨ov, ⟨o, ho, hname⟩, heq⟩
    rcases (mem_outcomeCandidates g d o).mp ho with ⟨hon, hres⟩
    exact ⟨o, hon, hres, by rw [hname, heq]⟩
  · rintro ⟨o, hon, hres, hname⟩
    exact ⟨some nm, ⟨o, (mem_outcomeCandidates g d o).mpr ⟨hon, hres⟩, hname⟩, rfl⟩


/-! ## Claims -/

/-- C1: on the spec's end-to-end scenario — two Decisions, one with a
Person participant only and one with an Agent participant only
(participation being the schema's `PARTICIPATED_IN` relationship), and
one `good` Outcome linked via `LED_TO` to the human-only decision —
`get_dashboard_stats` does report `total_decisions = 2`,
`good_outcomes = 1`, `bad_outcomes = 0` and `good_rate = 100`, but it
reports `human_decisions = 0` and `ai_decisions = 0`, not 1 and 1: its
query counts decisions with an incoming `CONTRIBUTED_TO` edge from a
Person/Agent, a pattern that participation edges never satisfy. -/
theorem C1_dashboard_scenario_on_code :
    get_dashboard_stats dashG1 =
      { total_decisions := 2, good_outcomes := 1, bad_outcomes := 0, good_rate := 100,
        bad_rate := 0, human_decisions := 0, ai_decisions := 0 } ∧
    (get_dashboard_stats dashG1).human_decisions ≠ 1 ∧
    (get_dashboard_stats dashG1).ai_decisions ≠ 1 := by
  have htot : (dashG1.labNodes Label.Decision).length = 2 := by decide
  have hg : distinctCount ((dashG1.labNodes Label.Decision).filter
      (fun d => dashG1.ledToType d "good")) = 1 := by decide
  have hb : distinctCount ((dashG1.labNodes Label.Decision).filter
      (fun d => dashG1.ledToType d "bad")) = 0 := by decide
  have hh : distinctCount ((dashG1.labNodes Label.Decision).filter
      (fun d => dashG1.contribFrom Label.Person d)) = 0 := by decide
  have ha : distinctCount ((dashG1.labNodes Label.Decision).filter
      (fun d => dashG1.contribFrom Label.Agent d)) = 0 := by decide
  have heq : get_dashboard_stats dashG1 =
      { total_decisions := 2, good_outcomes := 1, bad_outcomes := 0, good_rate := 100,
        bad_rate := 0, human_decisions := 0, ai_decisions := 0 } := by
    simp only [get_dashboard_stats, htot, hg, hb, hh, ha]
    norm_num
  refine ⟨heq, ?_, ?_⟩
  · rw [heq]; decide
  · rw [heq]; decide

/-- C2: the `dashboard` route handler calls
`client.get_decisions_with_outcomes(limit=20)`, but the `Neo4jClient`
class defines no attribute of that name, so the call raises an
attribute-lookup error on every request instead of resolving to an
existing query method. -/
theorem C2_dashboard_calls_undefined_method :
    "get_decisions_with_outcomes" ∈ dashboardClientCalls ∧
    "get_decisions_with_outcomes" ∉ neo4jClientMethods := by decide

/-- C3 (amended): `get_contribution_split` returns only the Decision
split, and in it `human_only + ai_only + both + none = total`, with
`total` the number of Decisions in the store, for any graph content
including an empty graph. -/
theorem C3_decision_split_partition_holds (g : Graph) (hw : g.Wf) :
    getField (get_contribution_split g) "human_only" + getField (get_contribution_split g) "ai_only" +
      getField (get_contribution_split g) "both" + getField (get_contribution_split g) "none" =
      getField (get_contribution_split g) "total" ∧
    getField (get_contribution_split g) "total" = (g.countLabel Label.Decision : Rat) := by
  have h1 : getField (get_contribution_split g) "human_only" =
      ((decisionSplitCount g "human" : Nat) : Rat) := rfl
  have h2 : getField (get_contribution_split g) "ai_only" =
      ((decisionSplitCount g "ai" : Nat) : Rat) := rfl
  have h3 : getField (get_contribution_split g) "both" =
      ((decisionSplitCount g "both" : Nat) : Rat) := rfl
  have h4 : getField (get_contribution_split g) "none" =
      ((decisionSplitCount g "none" : Nat) : Rat) := rfl
  have h5 : getField (get_contribution_split g) "total" =
      ((decisionSplitCount g "human" + decisionSplitCount g "ai" + decisionSplitCount g "both" +
        decisionSplitCount g "none" : Nat) : Rat) := rfl
  rw [h1, h2, h3, h4, h5]
  constructor
  · push_cast
    ring
  · have htot : decisionSplitCount g "human" + decisionSplitCount g "ai" +
        decisionSplitCount g "both" + decisionSplitCount g "none" = g.countLabel Label.Decision :=
      (decisionSplit_partition g).trans (distinctCount_labNodes g hw Label.Decision)
    exact_mod_cast congrArg (fun n : Nat => (n : Rat)) htot

/-- C3 counterexample: on a store where the outcome split is non-trivial
(one Outcome with one human-classified contributing Decision), the value
returned by `get_contribution_split` holds exactly the nine
decision-split fields — no Outcome-split field is returned, although the
source computes a non-zero outcome split and discards it. -/
theorem C3_outcome_split_not_returned :
    (get_contribution_split splitG3).map Prod.fst =
      ["human_only", "ai_only", "both", "none", "total", "human_only_rate", "ai_only_rate",
       "both_rate", "none_rate"] ∧
    getField (get_contribution_split splitG3) "human_only" = ((1 : Nat) : Rat) ∧
    getField (get_contribution_split splitG3) "total" = ((1 : Nat) : Rat) ∧
    outcomeSplitCounts splitG3 = ⟨1, 0, 0, 0, 1⟩ := by
  refine ⟨by decide, rfl, rfl, by decide⟩

/-- C3 witness: the amended statement instantiated at `splitG3`. -/
theorem C3_decision_split_witness :
    getField (get_contribution_split splitG3) "human_only" +
        getField (get_contribution_split splitG3) "ai_only" +
        getField (get_contribution_split splitG3) "both" +
        getField (get_contribution_split splitG3) "none" =
      getField (get_contribution_split splitG3) "total" ∧
    getField (get_contribution_split splitG3) "total" = (splitG3.countLabel Label.Decision : Rat) :=
  C3_decision_split_partition_holds splitG3 (by decide)

/-- C4 (amended): `get_topology_stats` always succeeds, and when every
one of Event, Outcome, Person, Agent and Task has at least one instance
it reports the true count of every kind; but as soon as one of those
five kinds has zero instances it reports zero for every kind, because
each chained bare `MATCH` drops all rows when its pattern has no
match. (A store with zero Decisions alone still reports true counts.) -/
theorem C4_topology_zero_kind (g : Graph) :
    (0 < g.countLabel Label.Event → 0 < g.countLabel Label.Outcome →
      0 < g.countLabel Label.Person → 0 < g.countLabel Label.Agent →
      0 < g.countLabel Label.Task →
      get_topology_stats g =
        { decisions := g.countLabel Label.Decision, events := g.countLabel Label.Event,
          outcomes := g.countLabel Label.Outcome, people := g.countLabel Label.Person,
          agents := g.countLabel Label.Agent, tasks := g.countLabel Label.Task }) ∧
    ((g.countLabel Label.Event = 0 ∨ g.countLabel Label.Outcome = 0 ∨
        g.countLabel Label.Person = 0 ∨ g.countLabel Label.Agent = 0 ∨
        g.countLabel Label.Task = 0) →
      get_topology_stats g =
        { decisions := 0, events := 0, outcomes := 0, people := 0, agents := 0, tasks := 0 }) := by
  constructor
  · intro h1 h2 h3 h4 h5
    have hcond : ¬(g.countLabel Label.Event = 0 ∨ g.countLabel Label.Outcome = 0 ∨
        g.countLabel Label.Person = 0 ∨ g.countLabel Label.Agent = 0 ∨
        g.countLabel Label.Task = 0) := by omega
    simp only [get_topology_stats, topologyRows, if_neg hcond]
  · intro h
    simp only [get_topology_stats, topologyRows, if_pos h]

/-- C4 counterexample: a store with one Decision, Outcome, Person, Agent
and Task but zero Events makes `get_topology_stats` report zero for
every kind — in particular `decisions = 0` although one Decision is
present, contradicting "a missing kind zeroes only its own field". -/
theorem C4_missing_event_zeroes_all :
    get_topology_stats topoG4 =
      { decisions := 0, events := 0, outcomes := 0, people := 0, agents := 0, tasks := 0 } ∧
    topoG4.countLabel Label.Decision = 1 ∧
    topoG4.countLabel Label.Event = 0 := by decide

/-- C4 witness: the true-count branch instantiated at a store holding
one node of every kind. -/
theorem C4_topology_witness :
    get_topology_stats topoGW =
      { decisions := topoGW.countLabel Label.Decision, events := topoGW.countLabel Label.Event,
        outcomes := topoGW.countLabel Label.Outcome, people := topoGW.countLabel Label.Person,
        agents := topoGW.countLabel Label.Agent, tasks := topoGW.countLabel Label.Task } :=
  (C4_topology_zero_kind topoGW).1 (by decide) (by decide) (by decide) (by decide) (by decide)

/-- C5 (amended): in `get_decisions_by_type`, every Decision with a
non-null name produces exactly one classified row, each row's class is
one of both/human/ai/unknown, the flattened result keeps the fixed group
order both, human, ai, unknown, each group equals the first `per_type`
rows of its name-ordered class (hence is capped at `per_type`), and
rows inside a group are ordered by decision name ascending.  Decisions
whose `name` property is null are excluded entirely by the query's
`WHERE d.name IS NOT NULL`. -/
theorem C5_grouping_order (g : Graph) (hw : g.Wf) (k : Nat) :
    (∀ d ∈ g.nodes, d.label = Label.Decision → d.name.isSome = true →
      (decisionRows g).countP (fun r => r.did == d.id) = 1) ∧
    (∀ r ∈ decisionRows g, r.influence_type = "both" ∨ r.influence_type = "human" ∨
      r.influence_type = "ai" ∨ r.influence_type = "unknown") ∧
    ((get_decisions_by_type g k).map OutRow.influence_type).Pairwise
      (fun a b => typeRank a ≤ typeRank b) ∧
    (∀ t, (get_decisions_by_type g k).filter (fun r => r.influence_type == t) =
      (groupFor g k t).map projOut) ∧
    (∀ t, ((get_decisions_by_type g k).filter (fun r => r.influence_type == t)).Pairwise
      (fun a b => strLe a.decision b.decision = true)) ∧
    (∀ t, ((get_decisions_by_type g k).filter (fun r => r.influence_type == t)).length ≤ k) := by
  haveI : IsTotal DRow rowLe := ⟨rowLe_total⟩
  haveI : IsTrans DRow rowLe := ⟨rowLe_trans⟩
  have hsorted : (sortedRows g).Pairwise rowLe := List.sorted_insertionSort rowLe (decisionRows g)
  have hhom : ∀ t, ∀ r ∈ (groupFor g k t).map projOut, r.influence_type = t := by
    intro t r hr
    rcases List.mem_map.mp hr with ⟨r0, hr0, rfl⟩
    exact mem_groupFor_type g k t r0 hr0
  have h4 : ∀ t, (get_decisions_by_type g k).filter (fun r => r.influence_type == t) =
      (groupFor g k t).map projOut := by
    intro t
    unfold get_decisions_by_type
    rw [groups_filter (fun t => (groupFor g k t).map projOut) hhom (groupKeys g)
      (List.nodup_dedup _) t]
    by_cases ht : t ∈ groupKeys g
    · rw [if_pos ht]
    · rw [if_neg ht]
      have hfe : (sortedRows g).filter (fun r => r.influence_type == t) = [] := by
        apply List.filter_eq_nil_iff.mpr
        intro r hr hbeq
        exact ht (List.mem_dedup.mpr (List.mem_map.mpr ⟨r, hr, beq_iff_eq.mp hbeq⟩))
      unfold groupFor
      rw [hfe, List.take_nil, List.map_nil]
  refine ⟨?_, ?_, ?_, h4, ?_, ?_⟩
  · intro d hd hlab hname
    rw [decisionRows_eq]
    rw [List.countP_map]
    show ((g.labNodes Label.Decision).filter (fun n => n.name.isSome)).countP
      (fun n => n.id == d.id) = 1
    have hrw : ((g.labNodes Label.Decision).filter (fun n => n.name.isSome)).countP
        (fun n => n.id == d.id) =
        (((g.labNodes Label.Decision).filter (fun n => n.name.isSome)).map Node.id).countP
          (fun i => i == d.id) := by
      rw [List.countP_map]
      rfl
    rw [hrw, ← List.count_eq_countP]
    apply List.count_eq_one_of_mem
    · exact List.Nodup.sublist
        (((List.filter_sublist _).trans (List.filter_sublist _)).map Node.id) hw
    · exact List.mem_map_of_mem Node.id
        (List.mem_filter.mpr ⟨List.mem_filter.mpr ⟨hd, by simp [hlab]⟩, hname⟩)
  · intro r hr
    rw [decisionRows_eq] at hr
    rcases List.mem_map.mp hr with ⟨n, _, rfl⟩
    exact influenceClass_cases (g.participants Label.Person n.id) (g.participants Label.Agent n.id)
  · unfold get_decisions_by_type
    rw [List.pairwise_map, List.pairwise_flatten]
    constructor
    · intro l2 hl2
      rcases List.mem_map.mp hl2 with ⟨t, _, rfl⟩
      apply List.pairwise_of_forall_mem_list
      intro a ha b hb
      rw [hhom t a ha, hhom t b hb]
    · rw [List.pairwise_map]
      have hkeys : (groupKeys g).Pairwise (fun t1 t2 => typeRank t1 ≤ typeRank t2) := by
        unfold groupKeys
        apply List.Pairwise.sublist (List.dedup_sublist _)
        rw [List.pairwise_map]
        apply hsorted.imp
        intro a b hab
        rcases hab with h | ⟨h, _⟩
        · exact Nat.le_of_lt h
        · exact Nat.le_of_eq h
      apply hkeys.imp
      intro t1 t2 h12 x hx y hy
      rw [hhom t1 x hx, hhom t2 y hy]
      exact h12
  · intro t
    rw [h4 t, List.pairwise_map]
    have hg : (groupFor g k t).Pairwise rowLe :=
      List.Pairwise.sublist (List.take_sublist k _)
        (List.Pairwise.sublist (List.filter_sublist _) hsorted)
    refine List.Pairwise.imp_of_mem ?_ hg
    intro a b ha hb hab
    have hta := mem_groupFor_type g k t a ha
    have htb := mem_groupFor_type g k t b hb
    rcases hab with hlt | ⟨_, hs⟩
    · rw [hta, htb] at hlt
      exact absurd hlt (lt_irrefl _)
    · exact hs
  · intro t
    rw [h4 t, List.length_map]
    unfold groupFor
    exact List.length_take_le k _

/-- C5 counterexample: a well-formed store holding one Decision (with a
null `name`) yields no classified row and an empty result from
`get_decisions_by_type`, so that Decision is classified into none of the
four groups, refuting "every Decision is classified into exactly
one". -/
theorem C5_null_named_decision_unclassified :
    cexG5.Wf ∧
    (cexG5.labNodes Label.Decision).length = 1 ∧
    decisionRows cexG5 = [] ∧
    get_decisions_by_type cexG5 4 = [] := by decide

/-- C5 witness: the amended statement instantiated at `gw5` (three named
decisions, classes both/human/unknown). -/
theorem C5_grouping_witness :
    gw5.Wf ∧
    (decisionRows gw5).countP (fun r => r.did == gw5BothNode.id) = 1 ∧
    ((get_decisions_by_type gw5 4).map OutRow.influence_type).Pairwise
      (fun a b => typeRank a ≤ typeRank b) ∧
    (get_decisions_by_type gw5 4).filter (fun r => r.influence_type == "both") =
      (groupFor gw5 4 "both").map projOut :=
  ⟨by decide,
    (C5_grouping_order gw5 (by decide) 4).1 gw5BothNode (by decide) (by decide) (by decide),
    (C5_grouping_order gw5 (by decide) 4).2.2.1,
    (C5_grouping_order gw5 (by decide) 4).2.2.2.1 "both"⟩

/-- C6 (amended): in `get_decisions_by_type`, the resolved outcome name
of a Decision is some name of an Outcome reachable by a
`CONTRIBUTED_TO` chain of one or two hops (not zero) to a Task or Event
node (not a Decision) followed by a `CAUSED_BY` edge from the Outcome
to that node, any satisfying path sufficing; it is non-null exactly
when such an Outcome with a non-null name exists. -/
theorem C6_outcome_resolution (g : Graph) (d : Node) :
    ((resolvedOutcome g d).isSome = true ↔
      ∃ o ∈ g.nodes, CodeResolvable g d o ∧ o.name.isSome = true) ∧
    (∀ nm, resolvedOutcome g d = some nm →
      ∃ o ∈ g.nodes, CodeResolvable g d o ∧ o.name = some nm) := by
  constructor
  · constructor
    · intro h
      rcases Option.isSome_iff_exists.mp h with ⟨nm, hnm⟩
      unfold resolvedOutcome at hnm
      have hmem := List.mem_of_mem_head? (Option.mem_def.mpr hnm)
      rcases (mem_resolvedNames g d nm).mp hmem with ⟨o, hon, hres, hname⟩
      exact ⟨o, hon, hres, by rw [hname]; rfl⟩
    · rintro ⟨o, hon, hres, hname⟩
      rcases Option.isSome_iff_exists.mp hname with ⟨nm, hnm⟩
      have hmem := (mem_resolvedNames g d nm).mpr ⟨o, hon, hres, hnm⟩
      unfold resolvedOutcome
      cases hl : (((g.outcomeCandidates d).map Node.name).filterMap id).dedup with
      | nil => rw [hl] at hmem; exact absurd hmem (List.not_mem_nil nm)
      | cons a tl => rfl
  · intro nm h
    unfold resolvedOutcome at h
    exact (mem_resolvedNames g d nm).mp (List.mem_of_mem_head? (Option.mem_def.mpr h))

/-- C6 counterexample: a Decision that is directly an Outcome's cause —
the `CAUSED_BY` edge of the Outcome points at the Decision itself, a
zero-hop `CONTRIBUTED_TO` chain — gets no resolved outcome: the row
returned for it carries `outcome = none`, refuting "0 to 2 hops ... a
Decision directly linked to an Outcome's cause at 0 CONTRIBUTED_TO hops
has its outcome resolved". -/
theorem C6_zero_hop_not_resolved :
    (cexG6.labNodes Label.Decision).length = 1 ∧
    ({ src := 2, rel := Rel.CAUSED_BY, dst := 1 } : Edge) ∈ cexG6.edges ∧
    get_decisions_by_type cexG6 4 =
      [{ decision := "d1", description := none, outcome := none, people := [], agents := [],
         influence_type := "unknown" }] := by decide

/-- C6 witness: the amended statement instantiated at `gw6`, where a
one-hop chain through a Task resolves the outcome `win`. -/
theorem C6_outcome_resolution_witness :
    resolvedOutcome gw6 gw6DecNode = some "win" ∧
    ∃ o ∈ gw6.nodes, CodeResolvable gw6 gw6DecNode o ∧ o.name = some "win" :=
  ⟨by decide, (C6_outcome_resolution gw6 gw6DecNode).2 "win" (by decide)⟩

/-- C7: `get_people_with_stats` and `get_agents_with_stats` return rows
sorted by decision count descending, and whenever the result-size limit
is not exceeded every Person/Agent appears with its true participation
count — in particular an entity with zero associated Decisions appears
with count exactly 0 rather than being omitted. -/
theorem C7_ranked_participation (g : Graph) (limit : Nat) :
    (get_people_with_stats g limit).Pairwise personStatGe ∧
    (get_agents_with_stats g limit).Pairwise agentStatGe ∧
    ((g.labNodes Label.Person).length ≤ limit →
      ∀ p ∈ g.labNodes Label.Person,
        PersonStat.mk p.name p.role (participationCount g p) ∈ get_people_with_stats g limit) ∧
    ((g.labNodes Label.Agent).length ≤ limit →
      ∀ a ∈ g.labNodes Label.Agent,
        AgentStat.mk a.name a.description (participationCount g a) ∈
          get_agents_with_stats g limit) := by
  refine ⟨?_, ?_, ?_, ?_⟩
  · exact List.Pairwise.sublist (List.take_sublist _ _) (List.sorted_insertionSort personStatGe _)
  · exact List.Pairwise.sublist (List.take_sublist _ _) (List.sorted_insertionSort agentStatGe _)
  · intro hlen p hp
    unfold get_people_with_stats
    have hperm := List.perm_insertionSort personStatGe
      ((g.labNodes Label.Person).map (fun p => PersonStat.mk p.name p.role (participationCount g p)))
    rw [List.take_of_length_le (by rw [hperm.length_eq, List.length_map]; exact hlen)]
    exact hperm.mem_iff.mpr (List.mem_map_of_mem _ hp)
  · intro hlen a ha
    unfold get_agents_with_stats
    have hperm := List.perm_insertionSort agentStatGe
      ((g.labNodes Label.Agent).map
        (fun a => AgentStat.mk a.name a.description (participationCount g a)))
    rw [List.take_of_length_le (by rw [hperm.length_eq, List.length_map]; exact hlen)]
    exact hperm.mem_iff.mpr (List.mem_map_of_mem _ ha)

/-- C7 witness: in `gw7`, the zero-participation person `alice` appears
in the output with count exactly 0, and the output is sorted by count
descending. -/
theorem C7_ranked_participation_witness :
    participationCount gw7 gw7Alice = 0 ∧
    PersonStat.mk gw7Alice.name gw7Alice.role (participationCount gw7 gw7Alice) ∈
      get_people_with_stats gw7 50 ∧
    (get_people_with_stats gw7 50).Pairwise personStatGe :=
  ⟨by decide, (C7_ranked_participation gw7 50).2.2.1 (by decide) gw7Alice (by decide),
    (C7_ranked_participation gw7 50).1⟩

/-- C8: in `get_decision_influence_stats`, `high_rate + low_rate` is at
most 100, equals exactly 100 whenever `high + low > 0`, and both rates
are exactly 0 (with no division error) when no decision is classified
high or low. -/
theorem C8_influence_rates (g : Graph) :
    (get_decision_influence_stats g).high_rate + (get_decision_influence_stats g).low_rate ≤ 100 ∧
    (0 < (get_decision_influence_stats g).high + (get_decision_influence_stats g).low →
      (get_decision_influence_stats g).high_rate + (get_decision_influence_stats g).low_rate
        = 100) ∧
    ((get_decision_influence_stats g).high + (get_decision_influence_stats g).low = 0 →
      (get_decision_influence_stats g).high_rate = 0 ∧
        (get_decision_influence_stats g).low_rate = 0) := by
  simp only [get_decision_influence_stats]
  set h := get_decisions_by_influence g "high" with hh
  set l := get_decisions_by_influence g "low" with hl
  by_cases h0 : h + l = 0
  · simp [h0]
  · have hpos : 0 < h + l := Nat.pos_of_ne_zero h0
    have hrate : (h : Rat) / ((h + l : Nat) : Rat) * 100 + (l : Rat) / ((h + l : Nat) : Rat) * 100
        = 100 := by
      have hne : ((h : Rat) + (l : Rat)) ≠ 0 := by
        have hcast : ((h + l : Nat) : Rat) ≠ 0 := by exact_mod_cast h0
        push_cast at hcast
        exact hcast
      push_cast
      field_simp
      ring
    refine ⟨?_, fun _ => ?_, fun hc => absurd hc h0⟩
    · simp only [if_pos hpos]
      rw [hrate]
    · simp only [if_pos hpos]
      rw [hrate]

/-- C8 witness: the rate identity instantiated at a store with one
high-influence decision. -/
theorem C8_influence_rates_witness :
    (get_decision_influence_stats gw8).high_rate + (get_decision_influence_stats gw8).low_rate
      ≤ 100 ∧
    (get_decision_influence_stats gw8).high_rate + (get_decision_influence_stats gw8).low_rate
      = 100 :=
  ⟨(C8_influence_rates gw8).1, (C8_influence_rates gw8).2.1 (by decide)⟩

/-- C9: on the empty input list, `summarize_outcomes` returns the fixed
"nothing to summarize" sentence, performs zero invocations of the
external text-generation service, and never creates the external
client. -/
theorem C9_empty_input_short_circuit (gen : String → Option String) :
    summarize_outcomes gen [] =
      { text := "No outcomes to summarize.", clientCreated := false, llmCalls := 0 } := rfl

/-- C9 witness: the short-circuit instantiated at a concrete external
service stub. -/
theorem C9_empty_input_witness :
    summarize_outcomes (fun _ => none) [] =
      { text := "No outcomes to summarize.", clientCreated := false, llmCalls := 0 } :=
  C9_empty_input_short_circuit (fun _ => none)

/-- C10 (amended): every record serializes to one line holding the
outcome name, description and comma-joined decision names in that
order, with `unknown` substituted when no non-empty decision name
remains; a missing name or description key is replaced by the literal
placeholder text, but a key present with a null value is rendered as
the literal text `None` rather than the placeholder. -/
theorem C10_serialized_line (r : OutcomeRecord) : outcomeLine r = specSerializedLine r := by
  rcases r with ⟨ok, dk, dl⟩
  rcases ok with _ | (_ | os) <;> rcases dk with _ | (_ | ds) <;> rfl

/-- C10 counterexample: a record whose `outcome` key is present with a
null value serializes with the null rendered as the literal text `None`
in the name position, not replaced by the `Unknown outcome`
placeholder. -/
theorem C10_null_field_renders_none :
    outcomeLine recNullName = "- None: No description (from decisions: unknown)" ∧
    outcomeLine recNullName ≠ "- Unknown outcome: No description (from decisions: unknown)" := by
  decide

/-- C10 witness: the line structure instantiated at a record with every
field present, showing name, description and the comma-joined decision
names in order. -/
theorem C10_serialized_line_witness :
    outcomeLine recFull = specSerializedLine recFull ∧
    outcomeLine recFull = "- Launch: Shipped v1 (from decisions: d1, d2)" :=
  ⟨C10_serialized_line recFull, by decide⟩

end PauseDash
